import Mathlib

/-!
Verification of the polemarch v3 serializer layer and user models.

The development shallowly embeds the two source modules
`polemarch/api/v3/serializers.py` and `polemarch/main/models/users.py`:
Python dictionaries become association lists over a `Val` value type,
serializer validation becomes explicit functions returning `Except`,
and the persistence transaction becomes an all-or-nothing state step.
Components of the repository that are referenced by the two modules but
whose code is not part of them (the hidden-argument redaction enum, the
v2 `generate_fields` helper, the `DependEnumField` resolution of the
vstutils library, and the `PeriodicTask` model constants) are modelled
from the specification and marked as such in their doc comments.
-/

namespace Polemarch

/-- Values stored in validated-data dictionaries: Python strings, ints,
booleans, nested dicts and `None`, which is all the serializers use. -/
inductive Val where
  | vStr (s : String)
  | vInt (n : Int)
  | vBool (b : Bool)
  | vMap (m : List (String × Val))
  | vNull

/-- Python truthiness of a `Val`, as used by `if inventory and ...` and
`if not data.get(...)` in `CreateExecutionTemplateSerializer.create`. -/
def truthy : Val → Bool
  | .vStr s => s != ""
  | .vInt n => n != 0
  | .vBool b => b
  | .vMap m => !m.isEmpty
  | .vNull => false

/-- Truthiness of a `dict.get` result: a missing key is falsy. -/
def truthyO : Option Val → Bool
  | none => false
  | some v => truthy v

/-- A Python dictionary with string keys, as an association list. -/
abbrev AList (α : Type) : Type := List (String × α)

/-- Dictionary lookup, `d.get(k)`: first binding of the key wins. -/
def alookup {α : Type} : AList α → String → Option α
  | [], _ => none
  | (k', v) :: rest, k => if k' = k then some v else alookup rest k

/-- Dictionary assignment `d[k] = v`: replaces the binding in place if the
key is present, appends it otherwise, preserving insertion order. -/
def aset {α : Type} : AList α → String → α → AList α
  | [], k, v => [(k, v)]
  | (k', v') :: rest, k, v =>
      if k' = k then (k, v) :: rest else (k', v') :: aset rest k v

theorem alookup_aset_self {α : Type} (m : AList α) (k : String) (v : α) :
    alookup (aset m k v) k = some v := by
  induction m with
  | nil => simp [aset, alookup]
  | cons hd tl ih =>
      by_cases h : hd.1 = k
      · simp [aset, alookup, h]
      · simpa [aset, alookup, h] using ih

theorem alookup_aset_ne {α : Type} (m : AList α) (k k' : String) (v : α)
    (h : k ≠ k') : alookup (aset m k v) k' = alookup m k' := by
  induction m with
  | nil => simp [aset, alookup, h]
  | cons hd tl ih =>
      by_cases hk : hd.1 = k
      · simp [aset, alookup, hk, h]
      · by_cases hk' : hd.1 = k'
        · simp [aset, alookup, hk, hk', Ne.symm h]
        · simpa [aset, alookup, hk, hk'] using ih

/-- Validated data of the serializers: a dictionary of `Val`s. -/
abbrev VData : Type := AList Val

/-! ### `polemarch/main/models/users.py` -/

/-- A row of the user identity store (only its primary key matters here). -/
structure AuthUser where
  id : Int

/-- A row of the `UserGroup` model (only its primary key matters here). -/
structure UserGroupRec where
  id : Int

/-- `ACLPermission`: `role` plus two independently nullable foreign keys
`uagroup` and `user`, exactly as declared on the model. -/
structure ACLPermission where
  role : String
  uagroup : Option UserGroupRec
  user : Option AuthUser

/-- The `member` property: returns `user.id` when a user is attached,
otherwise dereferences `uagroup.id`; `none` models the attribute error
raised when neither relation is set. -/
def ACLPermission.member (p : ACLPermission) : Option Int :=
  match p.user with
  | some u => some u.id
  | none =>
      match p.uagroup with
      | some g => some g.id
      | none => none

/-- The `member_type` property: `"user"` when a user is attached,
`"team"` otherwise. -/
def ACLPermission.member_type (p : ACLPermission) : String :=
  match p.user with
  | some _ => "user"
  | none => "team"

/-- The `member` setter: its body is `pass`, so the record is returned
unchanged whatever value is assigned. -/
def ACLPermission.memberSet (p : ACLPermission) (_v : Val) : ACLPermission := p

/-- The `member_type` setter: its body is `pass`, so the record is
returned unchanged whatever value is assigned. -/
def ACLPermission.memberTypeSet (p : ACLPermission) (_v : Val) : ACLPermission := p

/-- Claim C4: for every `ACLPermission` satisfying the invariant that
exactly one of the user/group identities is set, `member_type` returns
`"user"` iff the user identity is set (and `"team"` otherwise), and
`member` returns the id of whichever identity is present. -/
theorem member_accessors_spec (p : ACLPermission)
    (_hinv : (p.user.isSome ∧ p.uagroup = none) ∨
             (p.user = none ∧ p.uagroup.isSome)) :
    (p.member_type = "user" ↔ p.user.isSome) ∧
    (p.user = none → p.member_type = "team") ∧
    (∀ u, p.user = some u → p.member = some u.id) ∧
    (∀ g, p.user = none → p.uagroup = some g → p.member = some g.id) := by
  refine ⟨?_, ?_, ?_, ?_⟩
  · cases hu : p.user with
    | some u => simp [ACLPermission.member_type, hu]
    | none => simp [ACLPermission.member_type, hu]
  · intro hu; simp [ACLPermission.member_type, hu]
  · intro u hu; simp [ACLPermission.member, hu]
  · intro g hu hg; simp [ACLPermission.member, hu, hg]

/-- Claim C4 witness: a record owned by user 1 evaluates as specified. -/
theorem member_accessors_spec_witness :
    ({ role := "r", uagroup := none, user := some ⟨1⟩ } : ACLPermission).member
      = some 1 :=
  (member_accessors_spec
      { role := "r", uagroup := none, user := some ⟨1⟩ }
      (Or.inl ⟨rfl, rfl⟩)).2.2.1 ⟨1⟩ rfl

/-- Claim C9: assigning through `member` or `member_type` is a no-op:
the record, hence its `user`, `uagroup` and `role` fields, is unchanged. -/
theorem member_setters_noop (p : ACLPermission) (v w : Val) :
    p.memberSet v = p ∧ p.memberTypeSet w = p ∧
    (p.memberSet v).user = p.user ∧ (p.memberSet v).uagroup = p.uagroup ∧
    (p.memberTypeSet w).user = p.user ∧
    (p.memberTypeSet w).uagroup = p.uagroup ∧
    (p.memberSet v).role = p.role ∧ (p.memberTypeSet w).role = p.role :=
  ⟨rfl, rfl, rfl, rfl, rfl, rfl, rfl, rfl⟩

/-- Claim C10: the model admits a record with neither identity set; on it
`member_type` still returns `"team"` while `member` fails (returns the
error marker `none`); under the precondition that at least one identity
is set, `member` always returns an id. -/
theorem acl_permission_partiality :
    (({ role := "", uagroup := none, user := none } : ACLPermission).member_type
        = "team" ∧
     ({ role := "", uagroup := none, user := none } : ACLPermission).member
        = none) ∧
    ∀ p : ACLPermission, (p.user.isSome ∨ p.uagroup.isSome) →
      p.member.isSome = true := by
  refine ⟨⟨rfl, rfl⟩, ?_⟩
  intro p hp
  cases hu : p.user with
  | some u => simp [ACLPermission.member, hu]
  | none =>
      cases hg : p.uagroup with
      | some g => simp [ACLPermission.member, hu, hg]
      | none => rw [hu, hg] at hp; simp at hp

/-- Claim C10 witness: the totality part applied to a group-owned record. -/
theorem acl_permission_partiality_witness :
    ({ role := "", uagroup := some ⟨2⟩, user := none } : ACLPermission).member.isSome
      = true :=
  acl_permission_partiality.2 _ (Or.inr rfl)

/-! ### Redaction of hidden arguments

`BaseAnsibleArgumentsSerializer.to_representation` passes every produced
representation through `HiddenArgumentsEnum.hide_values`. -/

/-- Modelled from the spec: `HiddenArgumentsEnum.hide_values` lives in
`polemarch.main.constants`, which is not among the given sources. Per the
RedactionFilter contract it rewrites the given mapping, replacing the value
at each name of the configured hidden-name set with the fixed redaction
marker and leaving every other binding untouched. -/
def hide_values (hidden : List String) (marker : Val) : VData → VData
  | [] => []
  | (k, v) :: rest =>
      (k, if k ∈ hidden then marker else v) :: hide_values hidden marker rest

/-- The output representation: `to_representation` of the base ansible
arguments serializer, i.e. the redaction pass over the base representation. -/
def to_representation (hidden : List String) (marker : Val) (repr : VData) :
    VData :=
  hide_values hidden marker repr

theorem alookup_hide_values (hidden : List String) (marker : Val)
    (repr : VData) (k : String) :
    alookup (hide_values hidden marker repr) k
      = (alookup repr k).map fun v => if k ∈ hidden then marker else v := by
  induction repr with
  | nil => rfl
  | cons hd tl ih =>
      obtain ⟨k', v'⟩ := hd
      by_cases hk : k' = k
      · subst hk
        by_cases hh : k' ∈ hidden <;>
          simp [hide_values, alookup, hh]
      · by_cases hh : k' ∈ hidden <;>
          simpa [hide_values, alookup, hk, hh] using ih

theorem hide_values_idem (hidden : List String) (marker : Val) (repr : VData) :
    hide_values hidden marker (hide_values hidden marker repr)
      = hide_values hidden marker repr := by
  induction repr with
  | nil => rfl
  | cons hd tl ih =>
      obtain ⟨k, v⟩ := hd
      by_cases hh : k ∈ hidden <;>
        simp [hide_values, hh, ih]

/-- Claim C3: `hide_values` sends every present hidden key to the marker,
leaves every other key's value unchanged, never fails when no hidden name
is present (it is then the identity), is idempotent, and on the concrete
example of the spec produces exactly the redacted mapping. -/
theorem hide_values_spec (hidden : List String) (marker : Val) (repr : VData) :
    (∀ k v, alookup repr k = some v → k ∈ hidden →
       alookup (hide_values hidden marker repr) k = some marker) ∧
    (∀ k v, alookup repr k = some v → k ∉ hidden →
       alookup (hide_values hidden marker repr) k = some v) ∧
    (∀ k, alookup repr k = none →
       alookup (hide_values hidden marker repr) k = none) ∧
    ((∀ p ∈ repr, p.1 ∉ hidden) →
       hide_values hidden marker repr = repr) ∧
    hide_values hidden marker (hide_values hidden marker repr)
      = hide_values hidden marker repr ∧
    hide_values ["password"] (Val.vStr "<redacted>")
        [("password", Val.vStr "secret"), ("user", Val.vStr "bob")]
      = [("password", Val.vStr "<redacted>"), ("user", Val.vStr "bob")] := by
  refine ⟨?_, ?_, ?_, ?_, hide_values_idem hidden marker repr, by rfl⟩
  · intro k v hv hh
    rw [alookup_hide_values, hv]
    simp [hh]
  · intro k v hv hh
    rw [alookup_hide_values, hv]
    simp [hh]
  · intro k hv
    rw [alookup_hide_values, hv]
    rfl
  · intro hnone
    induction repr with
    | nil => rfl
    | cons hd tl ih =>
        obtain ⟨k, v⟩ := hd
        have hk : k ∉ hidden := hnone (k, v) (by simp)
        have htl : ∀ p ∈ tl, p.1 ∉ hidden := by
          intro p hp; exact hnone p (List.mem_cons_of_mem _ hp)
        simp [hide_values, hk, ih htl]

/-- Claim C3 witness: the hidden key of the spec's example is redacted. -/
theorem hide_values_spec_witness :
    alookup
        (hide_values ["password"] (Val.vStr "<redacted>")
          [("password", Val.vStr "secret"), ("user", Val.vStr "bob")])
        "password"
      = some (Val.vStr "<redacted>") :=
  (hide_values_spec ["password"] (Val.vStr "<redacted>")
      [("password", Val.vStr "secret"), ("user", Val.vStr "bob")]).1
    "password" (Val.vStr "secret") rfl (by decide)

/-! ### `UserSettings`: the typed view over a serialized blob

`UserSettings.settings` is a text column with default `"{}"`; the `data`
property decodes it with `json.loads`, its setter encodes with
`json.dumps`, and its deleter writes back the literal `'{}'`. The JSON
codec of the standard library is an external collaborator: it is
abstracted as any encoder/decoder pair satisfying the library's
round-trip contract, with the two facts the source relies on recorded as
fields (`"{}"` decodes to the empty object; decoding inverts encoding). -/

/-- An encoder/decoder pair for the serialized settings blob, together
with the two properties of `json.dumps`/`json.loads` the source relies
on. `empty` is the decoded form of the empty JSON object. -/
structure JsonCodec (α : Type) where
  dumps : α → String
  loads : String → Option α
  empty : α
  loads_empty : loads "\x7b\x7d" = some empty
  roundtrip : ∀ v, loads (dumps v) = some v

/-- The `UserSettings` row: the serialized `settings` blob plus the id of
the owning user (the one-to-one foreign key). -/
structure UserSettings where
  user : Int
  settings : String

/-- A fresh `UserSettings` row for a user: `settings` takes the column
default `"{}"`. -/
def mkUserSettings (uid : Int) : UserSettings :=
  { user := uid, settings := "\x7b\x7d" }

/-- The `data` property getter: decode the stored blob. -/
def UserSettings.dataGet {α : Type} (c : JsonCodec α) (u : UserSettings) :
    Option α :=
  c.loads u.settings

/-- The `data` property setter: encode the value and overwrite the blob. -/
def UserSettings.dataSet {α : Type} (c : JsonCodec α) (u : UserSettings)
    (v : α) : UserSettings :=
  { u with settings := c.dumps v }

/-- The `data` property deleter: reset the blob to the literal `'{}'`. -/
def UserSettings.dataDel (u : UserSettings) : UserSettings :=
  { u with settings := "\x7b\x7d" }

/-- `get_settings_copy` returns the decoded `data` view. -/
def UserSettings.get_settings_copy {α : Type} (c : JsonCodec α)
    (u : UserSettings) : Option α :=
  u.dataGet c

/-- Claim C8: the blob defaults to `"{}"`; writing any encodable value
through the setter and reading it back returns that value; deleting
resets the blob to exactly `"{}"`, after which reading returns the empty
mapping. -/
theorem user_settings_roundtrip {α : Type} (c : JsonCodec α)
    (u : UserSettings) (v : α) (uid : Int) :
    (mkUserSettings uid).settings = "\x7b\x7d" ∧
    (u.dataSet c v).dataGet c = some v ∧
    u.dataDel.settings = "\x7b\x7d" ∧
    u.dataDel.dataGet c = some c.empty :=
  ⟨rfl, c.roundtrip v, rfl, c.loads_empty⟩

/-- A concrete codec witnessing that the abstract JSON interface is
satisfiable: it encodes `true` as `"true"` and `false` as the empty
object. -/
def boolCodec : JsonCodec Bool where
  dumps := fun b => if b then "true" else "\x7b\x7d"
  loads := fun s =>
    if s = "true" then some true
    else if s = "\x7b\x7d" then some false
    else none
  empty := false
  loads_empty := by decide
  roundtrip := by intro v; cases v <;> decide

/-- Claim C8 witness: the round trip evaluated on a concrete codec, row
and value. -/
theorem user_settings_roundtrip_witness :
    ((mkUserSettings 1).dataSet boolCodec true).dataGet boolCodec
      = some true :=
  (user_settings_roundtrip boolCodec (mkUserSettings 1) true 1).2.1

/-! ### `CreateExecutionTemplateSerializer.create`

The creation hook receives the validated data, copies a truthy top-level
`inventory` down into the `data` payload when the payload's own
`inventory` entry is falsy, defaults a falsy `vars` entry to the empty
mapping, and hands everything else to persistence unchanged. -/

/-- The `if inventory and not data.get('inventory')` step of `create`:
copy the top-level inventory (the `get('inventory', None)` result) into
the payload when it is truthy and the payload's own entry is falsy. -/
def etCopyInventory (invOpt : Option Val) (data : VData) : VData :=
  match invOpt with
  | some inv =>
      if truthy inv && !truthyO (alookup data "inventory") then
        aset data "inventory" inv
      else data
  | none => data

/-- The `if not data.get('vars')` step of `create`: default a falsy
`vars` entry to the empty mapping. -/
def etDefaultVars (data : VData) : VData :=
  if !truthyO (alookup data "vars") then
    aset data "vars" (Val.vMap [])
  else data

/-- Dispatch of `create` on `validated_data['data']`: `none` models the
key error on a missing or non-dict `data` entry, which validation rules
out. -/
def etCreateAux : Option Val → VData → Option VData
  | some (Val.vMap data), validated =>
      some (aset validated "data"
        (Val.vMap (etDefaultVars
          (etCopyInventory (alookup validated "inventory") data))))
  | _, _ => none

/-- `CreateExecutionTemplateSerializer.create`: the validated-data
rewrite performed before handing the payload to the parent `create`. -/
def etCreate (validated : VData) : Option VData :=
  etCreateAux (alookup validated "data") validated

/-- A validated creation payload that supplies a blank (but present)
top-level inventory, with no inventory entry inside `data`. -/
def etBlankInvInput : VData :=
  [("inventory", Val.vStr ""),
   ("data", Val.vMap [("playbook", Val.vStr "p")])]

/-- Claim C7 counterexample: on a payload whose top-level `inventory` was
supplied as the blank string (the field allows blank values) and whose
`data` payload has no `inventory` entry, `create` does not copy the
supplied value down: the produced `data` payload still has no
`inventory` entry, because the code tests the Python truthiness of the
value, not its presence. -/
theorem create_blank_inventory_counterexample :
    alookup etBlankInvInput "inventory" = some (Val.vStr "") ∧
    alookup etBlankInvInput "data"
      = some (Val.vMap [("playbook", Val.vStr "p")]) ∧
    alookup [("playbook", Val.vStr "p")] "inventory" = none ∧
    etCreate etBlankInvInput
      = some [("inventory", Val.vStr ""),
              ("data", Val.vMap [("playbook", Val.vStr "p"),
                                 ("vars", Val.vMap [])])] ∧
    alookup [("playbook", Val.vStr "p"), ("vars", Val.vMap [])] "inventory"
      = none :=
  ⟨rfl, rfl, rfl, rfl, rfl⟩

theorem etCopyInventory_ne (invOpt : Option Val) (data : VData)
    (k : String) (hk : k ≠ "inventory") :
    alookup (etCopyInventory invOpt data) k = alookup data k := by
  cases invOpt with
  | none => rfl
  | some inv =>
      show alookup
          (if truthy inv && !truthyO (alookup data "inventory") then
            aset data "inventory" inv
          else data) k
        = alookup data k
      by_cases hc : (truthy inv && !truthyO (alookup data "inventory")) = true
      · rw [if_pos hc]
        exact alookup_aset_ne data "inventory" k inv (Ne.symm hk)
      · rw [if_neg hc]

theorem etCopyInventory_copies (inv : Val) (data : VData)
    (htr : truthy inv = true) (hno : alookup data "inventory" = none) :
    alookup (etCopyInventory (some inv) data) "inventory" = some inv := by
  show alookup
      (if truthy inv && !truthyO (alookup data "inventory") then
        aset data "inventory" inv
      else data) "inventory"
    = some inv
  rw [hno, htr]
  show alookup (aset data "inventory" inv) "inventory" = some inv
  exact alookup_aset_self data "inventory" inv

theorem etDefaultVars_ne (data : VData) (k : String) (hk : k ≠ "vars") :
    alookup (etDefaultVars data) k = alookup data k := by
  unfold etDefaultVars
  by_cases hc : (!truthyO (alookup data "vars")) = true
  · rw [if_pos hc]
    exact alookup_aset_ne data "vars" k _ (Ne.symm hk)
  · rw [if_neg hc]

theorem etDefaultVars_sets (data : VData)
    (hv : alookup data "vars" = none) :
    alookup (etDefaultVars data) "vars" = some (Val.vMap []) := by
  unfold etDefaultVars
  rw [hv]
  show alookup (aset data "vars" (Val.vMap [])) "vars" = some (Val.vMap [])
  exact alookup_aset_self data "vars" _

/-- Claim C7 as amended: on every ExecutionTemplate creation (a
validated payload always carries a `data` dict): if a non-empty (truthy)
inventory was supplied at the top level and the data payload contains no
inventory sub-field, the top-level inventory value is copied into
`data['inventory']`; if the data payload contains no vars sub-mapping,
`data['vars']` is set to the empty mapping; all other parts of the
validated data — every data entry other than `inventory` and `vars` and
every top-level entry other than `data` — are passed to persistence
unchanged. -/
theorem create_normalization_amended (validated data : VData)
    (hdata : alookup validated "data" = some (Val.vMap data)) :
    ∃ out data2,
      etCreate validated = some out ∧
      alookup out "data" = some (Val.vMap data2) ∧
      (∀ inv, alookup validated "inventory" = some inv →
         truthy inv = true → alookup data "inventory" = none →
         alookup data2 "inventory" = some inv) ∧
      (alookup data "vars" = none →
         alookup data2 "vars" = some (Val.vMap [])) ∧
      (∀ k, k ≠ "inventory" → k ≠ "vars" →
         alookup data2 k = alookup data k) ∧
      (∀ k, k ≠ "data" → alookup out k = alookup validated k) := by
  refine ⟨aset validated "data"
      (Val.vMap (etDefaultVars
        (etCopyInventory (alookup validated "inventory") data))),
    etDefaultVars (etCopyInventory (alookup validated "inventory") data),
    ?_, alookup_aset_self validated "data" _, ?_, ?_, ?_, ?_⟩
  · unfold etCreate
    rw [hdata]
    rfl
  · intro inv hinv htr hno
    rw [hinv, etDefaultVars_ne _ "inventory" (by decide)]
    exact etCopyInventory_copies inv data htr hno
  · intro hv
    apply etDefaultVars_sets
    rw [etCopyInventory_ne _ data "vars" (by decide)]
    exact hv
  · intro k hk1 hk2
    rw [etDefaultVars_ne _ k hk2, etCopyInventory_ne _ data k hk1]
  · intro k hk
    exact alookup_aset_ne validated "data" k _ (Ne.symm hk)

/-- Claim C7 witness: the amended rule evaluated on a concrete payload
with a truthy inventory. -/
theorem create_normalization_amended_witness :
    (etCreate [("inventory", Val.vStr "5"),
               ("data", Val.vMap [("playbook", Val.vStr "p")])]).isSome
      = true := by
  obtain ⟨out, data2, h1, -⟩ :=
    create_normalization_amended
      [("inventory", Val.vStr "5"),
       ("data", Val.vMap [("playbook", Val.vStr "p")])]
      [("playbook", Val.vStr "p")] rfl
  rw [h1]
  rfl

/-! ### Discriminated fields of `PeriodictaskSerializer`

The branch tables below transcribe the `types` dictionaries of the
serializer's `DependEnumField`s. The resolution of such a field is
library code (vstutils), so it is modelled from the specification. -/

/-- A configured branch of a discriminated field: the `hidden` sentinel,
or a concrete field spec with an optional default and a validator. -/
inductive Branch where
  | hidden
  | fieldSpec (default : Option Val) (valid : Val → Bool)

/-- Modelled from the spec: resolution of a vstutils `DependEnumField`
(the library code is not among the given sources), used identically for
input validation and output representation. An unconfigured discriminant
value or a `hidden` branch makes the field absent (`ok none`), silently
discarding any submitted value; a field-spec branch validates the
submitted value, or falls back to the branch default when nothing was
submitted. -/
def resolveDepend (types : AList Branch) (disc : String)
    (submitted : Option Val) : Except String (Option Val) :=
  match alookup types disc with
  | none => .ok none
  | some .hidden => .ok none
  | some (.fieldSpec dflt valid) =>
      match submitted with
      | none => .ok dflt
      | some v => if valid v then .ok (some v) else .error "invalid value"

/-- Accepts string values (autocompletion and crontab-format fields). -/
def isStrVal : Val → Bool
  | .vStr _ => true
  | _ => false

/-- Accepts integer values (foreign-key fields). -/
def isIntVal : Val → Bool
  | .vInt _ => true
  | _ => false

/-- Accepts non-negative integer seconds (the uptime field). -/
def isUptime : Val → Bool
  | .vInt n => decide (0 ≤ n)
  | _ => false

/-- The `template` field's branches: hidden for `PLAYBOOK` and `MODULE`
kinds, a template foreign key for kind `TEMPLATE`. -/
def templateTypes : AList Branch :=
  [("PLAYBOOK", .hidden), ("MODULE", .hidden),
   ("TEMPLATE", .fieldSpec none isIntVal)]

/-- The `template_opt` field is discriminated by the `template` value and
configures no branches at all. -/
def templateOptTypes : AList Branch := []

/-- The `schedule` field's branches: a crontab string defaulting to
`"* * * * *"` for `CRONTAB`, an uptime integer defaulting to `0` for
`INTERVAL`. -/
def scheduleTypes : AList Branch :=
  [("CRONTAB", .fieldSpec (some (Val.vStr "* * * * *")) isStrVal),
   ("INTERVAL", .fieldSpec (some (Val.vInt 0)) isUptime)]

/-- The `mode` field's branches: playbook/module autocompletion for the
two direct kinds, hidden for kind `TEMPLATE`. -/
def modeTypes : AList Branch :=
  [("PLAYBOOK", .fieldSpec none isStrVal),
   ("MODULE", .fieldSpec none isStrVal),
   ("TEMPLATE", .hidden)]

theorem resolveDepend_silent (types : AList Branch) (disc : String)
    (submitted : Option Val)
    (h : alookup types disc = none ∨ alookup types disc = some Branch.hidden) :
    resolveDepend types disc submitted = Except.ok none := by
  unfold resolveDepend
  rcases h with h | h <;> rw [h]

/-- Claim C2: for each discriminated field of `PeriodictaskSerializer`
(`template`, `template_opt`, `schedule`, `mode`), whenever the
discriminant's current value matches no configured branch or matches a
`hidden` branch, resolution makes the field absent from accepted input
and produced output: any submitted value is discarded and no validation
error is raised. -/
theorem depend_field_silent_omission (d : String) (sub : Option Val) :
    ((alookup templateTypes d = none ∨
        alookup templateTypes d = some Branch.hidden) →
       resolveDepend templateTypes d sub = Except.ok none) ∧
    ((alookup templateOptTypes d = none ∨
        alookup templateOptTypes d = some Branch.hidden) →
       resolveDepend templateOptTypes d sub = Except.ok none) ∧
    ((alookup scheduleTypes d = none ∨
        alookup scheduleTypes d = some Branch.hidden) →
       resolveDepend scheduleTypes d sub = Except.ok none) ∧
    ((alookup modeTypes d = none ∨
        alookup modeTypes d = some Branch.hidden) →
       resolveDepend modeTypes d sub = Except.ok none) :=
  ⟨resolveDepend_silent _ d sub, resolveDepend_silent _ d sub,
   resolveDepend_silent _ d sub, resolveDepend_silent _ d sub⟩

/-- Claim C2 witness: submitting a value for `template` under kind
`PLAYBOOK` (a hidden branch) is silently dropped. -/
theorem depend_field_silent_omission_witness :
    resolveDepend templateTypes "PLAYBOOK" (some (Val.vInt 7))
      = Except.ok none :=
  (depend_field_silent_omission "PLAYBOOK" (some (Val.vInt 7))).1 (Or.inr rfl)

/-! ### `PeriodictaskSerializer` validation and the atomic write -/

/-- Modelled from the spec: `models.PeriodicTask.kinds` (the model is not
among the given sources); the serializer's `kind` choice list, whose
first element is the field default. -/
def ptKinds : List String := ["PLAYBOOK", "MODULE", "TEMPLATE"]

/-- Modelled from the spec: `models.PeriodicTask.types`; the serializer's
`type` choice list, whose first element is the field default. -/
def ptTypes : List String := ["CRONTAB", "INTERVAL"]

/-- A choice field with `required=False` and a default: a missing value
takes the default, a submitted value must be one of the choices. -/
def validateChoice (choices : List String) (dflt : String) :
    Option Val → Except String String
  | none => .ok dflt
  | some (Val.vStr s) =>
      if s ∈ choices then .ok s else .error "invalid choice"
  | some _ => .error "invalid choice"

/-- The discriminant key contributed by the resolved `template` value to
the second-level `template_opt` lookup. -/
def discKey : Option Val → String
  | some (Val.vInt n) => toString n
  | some (Val.vStr s) => s
  | _ => ""

/-- An optional field's contribution to the validated data: absent fields
are omitted. -/
def maybeField (k : String) : Option Val → VData
  | none => []
  | some v => [(k, v)]

/-- `PeriodictaskSerializer` validation of a submission: the choice
fields `kind` and `type` take their defaults when missing, the
discriminated fields resolve in dependency order (`template` and `mode`
by `kind`, `template_opt` by the resolved `template` value, `schedule`
by `type`), absent fields are omitted from the validated data, and the
plain `inventory` and `name` fields pass through. -/
def validatePT (input : VData) : Except String VData :=
  match validateChoice ptKinds "PLAYBOOK" (alookup input "kind") with
  | .error e => .error e
  | .ok kind =>
  match validateChoice ptTypes "CRONTAB" (alookup input "type") with
  | .error e => .error e
  | .ok ty =>
  match resolveDepend templateTypes kind (alookup input "template") with
  | .error e => .error e
  | .ok template =>
  match resolveDepend templateOptTypes (discKey template)
      (alookup input "template_opt") with
  | .error e => .error e
  | .ok templateOpt =>
  match resolveDepend scheduleTypes ty (alookup input "schedule") with
  | .error e => .error e
  | .ok schedule =>
  match resolveDepend modeTypes kind (alookup input "mode") with
  | .error e => .error e
  | .ok mode =>
      .ok (("kind", Val.vStr kind) :: ("type", Val.vStr ty)
        :: (maybeField "template" template
          ++ (maybeField "template_opt" templateOpt
            ++ (maybeField "schedule" schedule
              ++ (maybeField "mode" mode
                ++ (maybeField "inventory" (alookup input "inventory")
                  ++ maybeField "name" (alookup input "name")))))))

/-- The `kw.get('kind', None) == 'TEMPLATE'` test of `_do_with_vars`. -/
def isTemplateKind (kw : VData) : Bool :=
  match alookup kw "kind" with
  | some (Val.vStr s) => s == "TEMPLATE"
  | _ => false

/-- The normalization inside `_do_with_vars`: a TEMPLATE-kind write gets
`inventory` and `mode` forced to the empty string. -/
def normalizeTemplateKind (kw : VData) : VData :=
  if isTemplateKind kw then
    aset (aset kw "inventory" (Val.vStr "")) "mode" (Val.vStr "")
  else kw

/-- `PeriodictaskSerializer._do_with_vars` under `transaction.atomic`:
normalization and the persistence write form one atomic step on the
stored row. `writeOk` abstracts the success of the underlying write (an
external collaborator): on success the stored row becomes exactly the
normalized validated data, on failure the previous state is kept. -/
def doWithVars (writeOk : Bool) (kw : VData) (st : Option VData) :
    Option VData × Bool :=
  if writeOk then (some (normalizeTemplateKind kw), true) else (st, false)

/-- A full submission: validate, then run the atomic
normalize-and-write step with a successful write. A validation error
leaves the stored row unchanged. -/
def submitPT (input : VData) (st : Option VData) : Option VData × Bool :=
  match validatePT input with
  | .error _ => (st, false)
  | .ok kw => doWithVars true kw st

/-- Claim C1: for every validated PeriodicTask write whose `kind` equals
`TEMPLATE`, the persisted row has `inventory = ""` and `mode = ""`
whatever was submitted for them, every other entry is stored exactly as
validated, and the normalization is part of the same atomic step as the
write: on success the stored row is exactly the normalized data, on
write failure the previous state is kept with no partial effect. -/
theorem template_kind_normalization (kw : VData) (st : Option VData)
    (hkind : alookup kw "kind" = some (Val.vStr "TEMPLATE")) :
    (doWithVars true kw st = (some (normalizeTemplateKind kw), true) ∧
     alookup (normalizeTemplateKind kw) "inventory" = some (Val.vStr "") ∧
     alookup (normalizeTemplateKind kw) "mode" = some (Val.vStr "") ∧
     (∀ k, k ≠ "inventory" → k ≠ "mode" →
        alookup (normalizeTemplateKind kw) k = alookup kw k)) ∧
    doWithVars false kw st = (st, false) := by
  have htk : isTemplateKind kw = true := by
    unfold isTemplateKind
    rw [hkind]
    rfl
  have hnorm : normalizeTemplateKind kw
      = aset (aset kw "inventory" (Val.vStr "")) "mode" (Val.vStr "") := by
    unfold normalizeTemplateKind
    rw [htk]
    rfl
  refine ⟨⟨rfl, ?_, ?_, ?_⟩, rfl⟩
  · rw [hnorm, alookup_aset_ne _ "mode" "inventory" _ (by decide)]
    exact alookup_aset_self kw "inventory" _
  · rw [hnorm]
    exact alookup_aset_self _ "mode" _
  · intro k hk1 hk2
    rw [hnorm, alookup_aset_ne _ "mode" k _ (Ne.symm hk2),
      alookup_aset_ne _ "inventory" k _ (Ne.symm hk1)]

/-- Claim C1 witness: a TEMPLATE-kind write submitting a non-empty
inventory persists an empty one. -/
theorem template_kind_normalization_witness :
    alookup
        (normalizeTemplateKind
          [("kind", Val.vStr "TEMPLATE"), ("template", Val.vInt 1),
           ("inventory", Val.vStr "5"), ("mode", Val.vStr "site.yml")])
        "inventory"
      = some (Val.vStr "") :=
  ((template_kind_normalization
      [("kind", Val.vStr "TEMPLATE"), ("template", Val.vInt 1),
       ("inventory", Val.vStr "5"), ("mode", Val.vStr "site.yml")]
      none rfl).1).2.1

theorem alookup_maybeField_append (k k' : String) (v : Option Val)
    (rest : VData) (h : k ≠ k') :
    alookup (maybeField k v ++ rest) k' = alookup rest k' := by
  cases v <;> simp [maybeField, alookup, h]

theorem validatePT_schedule (input kw : VData)
    (hok : validatePT input = Except.ok kw)
    (hno : alookup input "schedule" = none) :
    (alookup input "type" = some (Val.vStr "CRONTAB") →
       alookup kw "schedule" = some (Val.vStr "* * * * *")) ∧
    (alookup input "type" = some (Val.vStr "INTERVAL") →
       alookup kw "schedule" = some (Val.vInt 0)) := by
  constructor
  · intro hty
    unfold validatePT at hok
    rw [hty, hno] at hok
    split at hok
    · simp at hok
    · rename_i kind hk
      split at hok
      · rename_i e h2
        simp [validateChoice, ptTypes] at h2
      · rename_i ty h2
        simp only [validateChoice, ptTypes] at h2
        simp at h2
        subst h2
        split at hok
        · simp at hok
        · rename_i template h3
          split at hok
          · rename_i e h4
            simp [resolveDepend, templateOptTypes, alookup] at h4
          · rename_i templateOpt h4
            split at hok
            · rename_i e h5
              simp [resolveDepend, scheduleTypes, alookup] at h5
            · rename_i schedule h5
              simp [resolveDepend, scheduleTypes, alookup] at h5
              subst h5
              split at hok
              · simp at hok
              · rename_i mode h6
                simp only [Except.ok.injEq] at hok
                subst hok
                cases template <;> cases templateOpt <;>
                  simp [alookup, maybeField]
  · intro hty
    unfold validatePT at hok
    rw [hty, hno] at hok
    split at hok
    · simp at hok
    · rename_i kind hk
      split at hok
      · rename_i e h2
        simp [validateChoice, ptTypes] at h2
      · rename_i ty h2
        simp only [validateChoice, ptTypes] at h2
        simp at h2
        subst h2
        split at hok
        · simp at hok
        · rename_i template h3
          split at hok
          · rename_i e h4
            simp [resolveDepend, templateOptTypes, alookup] at h4
          · rename_i templateOpt h4
            split at hok
            · rename_i e h5
              simp [resolveDepend, scheduleTypes, alookup] at h5
            · rename_i schedule h5
              simp [resolveDepend, scheduleTypes, alookup] at h5
              subst h5
              split at hok
              · simp at hok
              · rename_i mode h6
                simp only [Except.ok.injEq] at hok
                subst hok
                cases template <;> cases templateOpt <;>
                  simp [alookup, maybeField]

/-- Claim C6: a submission with `type = CRONTAB` and no schedule value
stores the schedule string `"* * * * *"`; a submission with
`type = INTERVAL` and no schedule value stores the integer `0`. -/
theorem schedule_defaults_spec (input : VData) (st : Option VData)
    (row : VData)
    (hno : alookup input "schedule" = none)
    (hst : (submitPT input st).1 = some row)
    (hwr : (submitPT input st).2 = true) :
    (alookup input "type" = some (Val.vStr "CRONTAB") →
       alookup row "schedule" = some (Val.vStr "* * * * *")) ∧
    (alookup input "type" = some (Val.vStr "INTERVAL") →
       alookup row "schedule" = some (Val.vInt 0)) := by
  cases hv : validatePT input with
  | error e =>
      unfold submitPT at hwr
      rw [hv] at hwr
      simp at hwr
  | ok kw =>
      unfold submitPT at hst
      rw [hv] at hst
      simp only [doWithVars, if_true, Option.some.injEq] at hst
      have hsched :
          alookup (normalizeTemplateKind kw) "schedule"
            = alookup kw "schedule" := by
        unfold normalizeTemplateKind
        cases htk : isTemplateKind kw with
        | false => rw [if_neg (by simp [htk])]
        | true =>
            rw [if_pos (by simp [htk]),
              alookup_aset_ne _ "mode" "schedule" _ (by decide),
              alookup_aset_ne _ "inventory" "schedule" _ (by decide)]
      obtain ⟨h1, h2⟩ := validatePT_schedule input kw hv hno
      subst hst
      exact ⟨fun hty => by rw [hsched]; exact h1 hty,
             fun hty => by rw [hsched]; exact h2 hty⟩

/-- Claim C6 witness: a minimal CRONTAB submission with no schedule
stores the default crontab string. -/
theorem schedule_defaults_spec_witness :
    alookup
        [("kind", Val.vStr "PLAYBOOK"), ("type", Val.vStr "CRONTAB"),
         ("schedule", Val.vStr "* * * * *")]
        "schedule"
      = some (Val.vStr "* * * * *") :=
  (schedule_defaults_spec [("type", Val.vStr "CRONTAB")] none
      [("kind", Val.vStr "PLAYBOOK"), ("type", Val.vStr "CRONTAB"),
       ("schedule", Val.vStr "* * * * *")]
      rfl rfl rfl).1 rfl

/-! ### Generated ansible-argument field sets

`AnsibleArgumentsMetaSerializer` calls `generate_fields` once at class
definition; the two instantiations are the playbook- and
module-arguments serializers. -/

/-- An argument spec of the reference catalog: a name plus the default
the catalog may carry for it. -/
structure ArgSpec where
  name : String
  default : Option Val

/-- A concrete serializer field produced by the generator. -/
structure FieldDef where
  name : String
  default : Option Val

/-- Modelled from the spec: `generate_fields` (from the v2 serializers,
not among the given sources) queries the catalog for the job type, drops
the excluded names, and builds one field per remaining spec, suppressing
any default when `no_default` is set; an unknown job type is a
definition-time failure (`none`). -/
def generate_fields (catalog : String → Option (List ArgSpec))
    (ansibleType : String) (exclude : List String) (noDefault : Bool) :
    Option (List FieldDef) :=
  (catalog ansibleType).map fun specs =>
    (specs.filter fun s => !exclude.contains s.name).map fun s =>
      { name := s.name, default := if noDefault then none else s.default }

/-- The exclusion set of the playbook-arguments serializer. -/
def playbookExclude : List String := ["inventory"]

/-- The exclusion set of the module-arguments serializer. -/
def moduleExclude : List String := ["args", "group", "inventory"]

/-- `PlaybookAnsibleArgumentsSerializer`: type `playbook`, excluding
`inventory`, defaults suppressed. -/
def playbookArgsFields (catalog : String → Option (List ArgSpec)) :
    Option (List FieldDef) :=
  generate_fields catalog "playbook" playbookExclude true

/-- `ModuleAnsibleArgumentsSerializer`: type `module`, excluding `args`,
`group` and `inventory`, defaults suppressed. -/
def moduleArgsFields (catalog : String → Option (List ArgSpec)) :
    Option (List FieldDef) :=
  generate_fields catalog "module" moduleExclude true

/-- Validation of a `vars` payload against generated fields: a submitted
value is taken per field, a missing one falls back to the field's
default when there is one and is omitted otherwise. -/
def validateArgs (fs : List FieldDef) (payload : VData) : VData :=
  match fs with
  | [] => []
  | f :: rest =>
      match alookup payload f.name with
      | some v => (f.name, v) :: validateArgs rest payload
      | none =>
          match f.default with
          | some d => (f.name, d) :: validateArgs rest payload
          | none => validateArgs rest payload

theorem validateArgs_empty_of_no_default (fs : List FieldDef)
    (h : ∀ f ∈ fs, f.default = none) : validateArgs fs [] = [] := by
  induction fs with
  | nil => rfl
  | cons f rest ih =>
      have hf := h f (by simp)
      have hrest : ∀ g ∈ rest, g.default = none := fun g hg =>
        h g (List.mem_cons_of_mem _ hg)
      simp [validateArgs, alookup, hf, ih hrest]

/-- Claim C5: the playbook-arguments field set is exactly the catalog's
`playbook` entries minus `inventory`, the module-arguments set exactly
the `module` entries minus `args`, `group`, `inventory`; both are fixed
functions of the catalog snapshot alone, no generated field carries a
default, and validating an empty vars payload populates nothing. -/
theorem generated_field_sets_spec
    (catalog : String → Option (List ArgSpec))
    (pspecs mspecs : List ArgSpec)
    (hp : catalog "playbook" = some pspecs)
    (hm : catalog "module" = some mspecs) :
    playbookArgsFields catalog
      = some ((pspecs.filter fun s => !playbookExclude.contains s.name).map
          fun s => { name := s.name, default := none }) ∧
    moduleArgsFields catalog
      = some ((mspecs.filter
            fun s => !moduleExclude.contains s.name).map
          fun s => { name := s.name, default := none }) ∧
    (∀ fl, playbookArgsFields catalog = some fl →
       fl.map FieldDef.name
           = (pspecs.filter
               fun s => !playbookExclude.contains s.name).map ArgSpec.name ∧
       (∀ f ∈ fl, f.default = none) ∧
       validateArgs fl [] = []) ∧
    (∀ fl, moduleArgsFields catalog = some fl →
       fl.map FieldDef.name
           = (mspecs.filter
               fun s =>
                 !moduleExclude.contains s.name).map
               ArgSpec.name ∧
       (∀ f ∈ fl, f.default = none) ∧
       validateArgs fl [] = []) := by
  have hp2 : playbookArgsFields catalog
      = some ((pspecs.filter fun s => !playbookExclude.contains s.name).map
          fun s => { name := s.name, default := none }) := by
    unfold playbookArgsFields generate_fields
    rw [hp]
    simp
  have hm2 : moduleArgsFields catalog
      = some ((mspecs.filter
            fun s => !moduleExclude.contains s.name).map
          fun s => { name := s.name, default := none }) := by
    unfold moduleArgsFields generate_fields
    rw [hm]
    simp
  refine ⟨hp2, hm2, ?_, ?_⟩
  · intro fl hfl
    rw [hp2] at hfl
    simp only [Option.some.injEq] at hfl
    subst hfl
    refine ⟨?_, ?_, ?_⟩
    · rw [List.map_map]
      rfl
    · intro f hf
      obtain ⟨s, hs, rfl⟩ := List.mem_map.mp hf
      rfl
    · apply validateArgs_empty_of_no_default
      intro f hf
      obtain ⟨s, hs, rfl⟩ := List.mem_map.mp hf
      rfl
  · intro fl hfl
    rw [hm2] at hfl
    simp only [Option.some.injEq] at hfl
    subst hfl
    refine ⟨?_, ?_, ?_⟩
    · rw [List.map_map]
      rfl
    · intro f hf
      obtain ⟨s, hs, rfl⟩ := List.mem_map.mp hf
      rfl
    · apply validateArgs_empty_of_no_default
      intro f hf
      obtain ⟨s, hs, rfl⟩ := List.mem_map.mp hf
      rfl

/-- A two-type demonstration catalog used to evaluate the generator. -/
def demoCatalog : String → Option (List ArgSpec) := fun t =>
  if t = "playbook" then
    some [{ name := "forks", default := some (Val.vInt 5) },
          { name := "inventory", default := none }]
  else if t = "module" then
    some [{ name := "args", default := none },
          { name := "verbose", default := none }]
  else none

/-- Claim C5 witness: on the demonstration catalog the playbook set drops
`inventory` and strips the catalog default of `forks`. -/
theorem generated_field_sets_spec_witness :
    playbookArgsFields demoCatalog
      = some [{ name := "forks", default := none }] :=
  (generated_field_sets_spec demoCatalog
      [{ name := "forks", default := some (Val.vInt 5) },
       { name := "inventory", default := none }]
      [{ name := "args", default := none },
       { name := "verbose", default := none }]
      rfl rfl).1

end Polemarch
